import Mathlib

set_option autoImplicit false
set_option maxHeartbeats 1000000

/-!
Shallow embedding of the psic repository: psic.py (the CISO/CSO codec) and
gsiz.py (the GCZ codec). Byte streams are lists of byte values (Nat),
machine integers are Nat or Int with explicit masking where the on-disk
width matters, and Python exceptions are modelled with Except. The zlib
library calls are parameters of the embedded functions: zlibDecompress
takes the wbits argument first (15 is the zlib.decompress default, a
zlib-wrapped stream; psic passes ZLIB_WINDOW_SIZE = -15, a raw deflate
stream with no wrapper).
-/

/-- Kinds of GczError raised in gsiz.py, identified by the message at each
raise site. -/
inductive GczErrorKind where
  | badMagic
  | indexOutOfRange
  | blockTooLarge
  | hashMismatch
  | uncompressedSizeMismatch
  | decodeSizeMismatch
deriving DecidableEq

/-- Python exceptions raised by the embedded code. gczError carries the kind
of failure; cisoBadMagic is the plain Exception raised by
CisoDecompressor._read_header; alignError is the plain Exception raised in
CisoCompressor.compress; typeError, attributeError and nameError model
exceptions Python raises before the intended error object is even built;
zlibError models zlib.error; indexError models IndexError from list
indexing. -/
inductive PyError where
  | gczError (kind : GczErrorKind)
  | cisoBadMagic
  | alignError
  | typeError
  | attributeError
  | nameError
  | zlibError
  | indexError
deriving DecidableEq

/-! CISO constants from class CisoWorker (psic.py lines 27 to 45). -/

def CISO_MAGIC : Nat := 0x4F534943

def CISO_HEADER_SIZE : Nat := 0x18

def CISO_VER : Nat := 0x01

def CISO_BLOCK_SIZE : Nat := 0x0800

def UNCOMPRESSED_BITMASK : Nat := 0x80000000

def INDEX_BITMASK : Nat := 0x7FFFFFFF

/-- zlib wbits value psic passes to zlib.decompress (psic.py line 25):
a raw deflate stream with a 32 KiB window and no zlib wrapper. -/
def ZLIB_WINDOW_SIZE : Int := -15

/-- Default wbits of zlib.decompress when no second argument is given, as in
gsiz.py line 119: MAX_WBITS = 15, a zlib-wrapped stream. -/
def ZLIB_DEFAULT_WBITS : Int := 15

/-- Result of one iteration step of IndexedBlockIterator. seekPos is the
argument of input_handle.seek and readLen the argument of
input_handle.read; readLen is an Int because the Python subtraction of
corrupt indices can go negative. -/
structure CisoBlockRead where
  compressed : Bool
  seekPos : Nat
  readLen : Int
deriving DecidableEq

/-- One step of IndexedBlockIterator.__call__ (psic.py lines 59 to 77) for
block blockI. The source computes block_start = raw_index & INDEX_BITMASK
and seeks there without applying the alignment shift; for a compressed
block the read length is (next_index - block_start + 1) << align when the
align field is nonzero, next_index - block_start otherwise, and for a
stored-uncompressed block the read length is CISO_BLOCK_SIZE. A Python
left shift is multiplication by a power of two, also on negative values. -/
def cisoBlockRange (align : Nat) (indexBuffer : List Nat) (blockI : Nat) : CisoBlockRead :=
  let rawIndex := indexBuffer.getD blockI 0
  let blockStart := rawIndex &&& INDEX_BITMASK
  let compressed := rawIndex &&& UNCOMPRESSED_BITMASK == 0
  if compressed then
    let nextIndex := indexBuffer.getD (blockI + 1) 0 &&& INDEX_BITMASK
    let blockSize : Int :=
      if align ≠ 0 then ((nextIndex : Int) - (blockStart : Int) + 1) * 2 ^ align
      else (nextIndex : Int) - (blockStart : Int)
    { compressed := true, seekPos := blockStart, readLen := blockSize }
  else
    { compressed := false, seekPos := blockStart, readLen := (CISO_BLOCK_SIZE : Int) }

/-- psic._decompress_mp_helper (psic.py lines 115 to 120): a compressed
block is decoded by zlib.decompress(data, ZLIB_WINDOW_SIZE), a
stored-uncompressed block is returned as is. No length of either result is
ever checked. -/
def decompress_mp_helper (zlibDecompress : Int → List Nat → Except PyError (List Nat))
    (compressed : Bool) (data : List Nat) : Except PyError (List Nat) :=
  if compressed then zlibDecompress ZLIB_WINDOW_SIZE data
  else Except.ok data

/-- psic._compress_mp_helper (psic.py lines 195 to 201): compressed_data is
zlib.compress(data, level) with its first two bytes stripped; when
100 * len(compressed_data) / len(data) (Python 2 floor division) reaches
the threshold the raw block is kept, otherwise the compressed bytes are.
The embedding assumes data is nonempty, as Python would raise
ZeroDivisionError otherwise; every caller reads nonempty blocks. -/
def compress_mp_helper (zlibCompress : Nat → List Nat → List Nat)
    (data : List Nat) (level threshold : Nat) : Bool × List Nat :=
  let compressed_data := (zlibCompress level data).drop 2
  if threshold ≤ 100 * compressed_data.length / data.length then (false, data)
  else (true, compressed_data)

/-- CisoCompressor._get_align_padding (psic.py lines 169 to 175). When the
write position is not on the alignment boundary the source evaluates the
bare name PADDING_BYTE; that name is only defined as a class attribute
(reachable as self.PADDING_BYTE) and does not exist at module scope, so
Python raises NameError there. On a boundary the empty padding is
returned. -/
def get_align_padding (write_pos align : Nat) : Except PyError (List Nat) :=
  let align_shift := 1 <<< align
  if write_pos % align_shift ≠ 0 then Except.error PyError.nameError
  else Except.ok []

/-- The per-block index entry computation of CisoCompressor.compress
(psic.py lines 152 to 160): index = (write_pos + len(padding)) >> align;
a stored-uncompressed block gets UNCOMPRESSED_BITMASK set, a compressed
block whose index already collides with that bit raises
Exception with message Align error. -/
def ciso_index_entry (align write_pos pad_len : Nat) (compressed : Bool) :
    Except PyError Nat :=
  let index := (write_pos + pad_len) >>> align
  if !compressed then Except.ok (index ||| UNCOMPRESSED_BITMASK)
  else if (index &&& UNCOMPRESSED_BITMASK) != 0 then Except.error PyError.alignError
  else Except.ok index

/-- Number of blocks CisoCompressor.compress processes (psic.py line 143):
block_count = file_size / CISO_BLOCK_SIZE with Python 2 floor division. -/
def cisoBlockCount (file_size : Nat) : Nat := file_size / CISO_BLOCK_SIZE

/-- Alignment chosen by CisoCompressor.compress (psic.py lines 136 to 139):
1 for files of at least 2 ** 31 bytes, 0 otherwise. -/
def cisoAlign (file_size : Nat) : Nat := if 2 ^ 31 ≤ file_size then 1 else 0

/-- The sequence of input_handle.read(CISO_BLOCK_SIZE) results consumed by
the generator expression in CisoCompressor.compress (psic.py lines 147 to
151): one fixed-size sequential read per loop iteration, block_count
iterations in total. -/
def cisoCompressReads (input : List Nat) : List (List Nat) :=
  (List.range (cisoBlockCount input.length)).map
    (fun i => (input.drop (i * CISO_BLOCK_SIZE)).take CISO_BLOCK_SIZE)

/-! Little-endian packing, shared by struct.pack and struct.unpack of the
fixed-width fields both file formats use. -/

/-- struct.pack of one little-endian field of the given byte width. -/
def packLE : Nat → Nat → List Nat
  | 0, _ => []
  | w + 1, v => v % 256 :: packLE w (v / 256)

/-- struct.unpack of one little-endian field of the given byte width from
the front of a byte list. Missing bytes read as zero; the embedded callers
always supply enough bytes. -/
def leVal : Nat → List Nat → Nat
  | 0, _ => 0
  | _ + 1, [] => 0
  | w + 1, b :: bs => b + 256 * leVal w bs

/-- The parsed CISO header record, one field per member of CISO_HEADER_FMT. -/
structure CisoHeader where
  magic : Nat
  header_size : Nat
  file_size : Nat
  block_size : Nat
  version : Nat
  align : Nat
  reserved : Nat
deriving DecidableEq

/-- CisoCompressor._build_header (psic.py lines 184 to 193): struct.pack of
CISO_HEADER_FMT, little endian, with the magic, the fixed header size, the
uncompressed file size, the block size, version 1, the align shift and a
zero reserved field. -/
def build_header (file_size block_size align : Nat) : List Nat :=
  packLE 4 CISO_MAGIC ++ packLE 4 CISO_HEADER_SIZE ++ packLE 8 file_size ++
    packLE 4 block_size ++ packLE 1 CISO_VER ++ packLE 1 align ++ packLE 2 0

/-- CisoDecompressor._read_header (psic.py lines 99 to 113): struct.unpack
of CISO_HEADER_FMT over the first CISO_HEADER_SIZE bytes, field by field
left to right, raising when the magic does not match. -/
def read_header (header_bytes : List Nat) : Except PyError CisoHeader :=
  let hb := header_bytes.take CISO_HEADER_SIZE
  if leVal 4 hb ≠ CISO_MAGIC then Except.error PyError.cisoBadMagic
  else Except.ok {
    magic := leVal 4 hb
    header_size := leVal 4 (hb.drop 4)
    file_size := leVal 8 ((hb.drop 4).drop 4)
    block_size := leVal 4 (((hb.drop 4).drop 4).drop 8)
    version := leVal 1 ((((hb.drop 4).drop 4).drop 8).drop 4)
    align := leVal 1 (((((hb.drop 4).drop 4).drop 8).drop 4).drop 1)
    reserved := leVal 2 ((((((hb.drop 4).drop 4).drop 8).drop 4).drop 1).drop 1) }

/-! GCZ embedding, from gsiz.py. -/

def GCZ_MAGIC : Nat := 0xB10BC001

/-- Byte size of struct.Struct with format IIQQII on the target machines:
fields at offsets 0, 4, 8, 16, 24, 28, total 32, little endian. -/
def GCZ_HEADER_SIZE : Nat := 32

/-- gsiz UNCOMPRESSED_BLOCK_FLAG = 1 << 63 (gsiz.py line 65). -/
def UNCOMPRESSED_BLOCK_FLAG : Nat := 1 <<< 63

/-- gsiz COMPRESSED_BLOCK_BITMASK = ~(1 << 63) (gsiz.py line 66). On the
arbitrary-precision Python integers that mask has every bit set except bit
63; restricted to the 64-bit values struct.unpack format Q produces, the
conjunction keeps exactly bits 0 to 62, so the embedding uses 2 ^ 63 - 1. -/
def COMPRESSED_BLOCK_BITMASK : Nat := 2 ^ 63 - 1

/-- The loaded GCZ header record together with the pointer and hash arrays
GczHeader._load_pointers_and_hashes attaches to it. -/
structure GczHeader where
  magic_cookie : Nat
  sub_type : Nat
  compressed_data_size : Nat
  data_size : Nat
  block_size : Nat
  num_blocks : Nat
  block_pointers : List Nat
  block_hashes : List Nat
deriving DecidableEq

/-- GczHeader.load (gsiz.py lines 22 to 39) over the bytes of the input
stream. The result is paired with the list of (seek position, byte count)
reads the method performs on the handle, so that how far the loader got
before failing is part of the embedding. On the size mismatch branch the
source builds its message with the percent operator applied to
self.block_size alone (the multiplication by self.num_blocks binds
outside the formatting because both operators share precedence), so a
format string holding two conversion specifiers meets a single integer
argument and Python raises TypeError before any GczError is constructed. -/
def gczHeaderLoad (data : List Nat) : Except PyError GczHeader × List (Nat × Nat) :=
  let headerBytes := (data.drop 0).take GCZ_HEADER_SIZE
  let magic := leVal 4 headerBytes
  let subType := leVal 4 (headerBytes.drop 4)
  let cds := leVal 8 (headerBytes.drop 8)
  let ds := leVal 8 (headerBytes.drop 16)
  let bsz := leVal 4 (headerBytes.drop 24)
  let nb := leVal 4 (headerBytes.drop 28)
  if magic ≠ GCZ_MAGIC then
    (Except.error (PyError.gczError GczErrorKind.badMagic), [(0, GCZ_HEADER_SIZE)])
  else if bsz * nb ≠ ds then
    (Except.error PyError.typeError, [(0, GCZ_HEADER_SIZE)])
  else
    let ptrBytes := (data.drop GCZ_HEADER_SIZE).take (8 * nb)
    let pointers := (List.range nb).map (fun i => leVal 8 (ptrBytes.drop (8 * i)))
    let hashBytes := (data.drop (GCZ_HEADER_SIZE + 8 * nb)).take (4 * nb)
    let hashes := (List.range nb).map (fun i => leVal 4 (hashBytes.drop (4 * i)))
    (Except.ok { magic_cookie := magic
                 sub_type := subType
                 compressed_data_size := cds
                 data_size := ds
                 block_size := bsz
                 num_blocks := nb
                 block_pointers := pointers
                 block_hashes := hashes },
      [(0, GCZ_HEADER_SIZE), (GCZ_HEADER_SIZE, 8 * nb), (GCZ_HEADER_SIZE + 8 * nb, 4 * nb)])

/-- A GczFile value: the underlying stream bytes (_handle) and the loaded
header. The class defines no attribute named handle. -/
structure GczFile where
  handleData : List Nat
  header : GczHeader
deriving DecidableEq

/-- GczFile.get_block_start (gsiz.py lines 88 to 89): list indexing that
raises IndexError out of range, then masking off the uncompressed flag
bit. -/
def get_block_start (f : GczFile) (block_num : Nat) : Except PyError Nat :=
  match f.header.block_pointers.get? block_num with
  | none => Except.error PyError.indexError
  | some p => Except.ok (p &&& COMPRESSED_BLOCK_BITMASK)

/-- GczFile.get_block_size (gsiz.py lines 75 to 86): IndexError from the
first get_block_start becomes GczError with the Illegal block number
message; the last block ends at compressed_data_size, any other at the
start of the next entry, whose own IndexError is not caught. The length is
an Int because the subtraction of corrupt pointers can go negative. -/
def get_block_size (f : GczFile) (block_num : Nat) : Except PyError Int :=
  match get_block_start f block_num with
  | Except.error _ => Except.error (PyError.gczError GczErrorKind.indexOutOfRange)
  | Except.ok block_start =>
    if (block_num : Int) = (f.header.num_blocks : Int) - 1 then
      Except.ok ((f.header.compressed_data_size : Int) - (block_start : Int))
    else
      match get_block_start f (block_num + 1) with
      | Except.error e => Except.error e
      | Except.ok next_start => Except.ok ((next_start : Int) - (block_start : Int))

/-- GczFile.get_block_is_uncompressed (gsiz.py lines 91 to 92): the high
bit of the block pointer. Only reached on indices the size check already
validated, so out-of-range reads default to 0 here. -/
def get_block_is_uncompressed (f : GczFile) (block_num : Nat) : Bool :=
  (f.header.block_pointers.getD block_num 0 &&& UNCOMPRESSED_BLOCK_FLAG) != 0

/-- One step of the Adler-32 state: a accumulates bytes, b accumulates a,
both modulo 65521. -/
def adler32core : List Nat → Nat × Nat → Nat × Nat
  | [], ab => ab
  | byte :: rest, (a, b) =>
    let a2 := (a + byte) % 65521
    adler32core rest (a2, (b + a2) % 65521)

/-- zlib.adler32 with its initial value 1: high half b, low half a. -/
def adler32 (data : List Nat) : Nat :=
  let ab := adler32core data (1, 0)
  ab.2 * 65536 + ab.1

/-- GczFile.compute_block_hash (gsiz.py lines 94 to 95):
zlib.adler32(block_data) & 0xFFFFFFFF. -/
def compute_block_hash (data : List Nat) : Nat :=
  adler32 data &&& 0xFFFFFFFF

/-- GczHeader.full_size (gsiz.py lines 53 to 55): header struct size plus
8 bytes per block pointer plus 4 bytes per block hash. -/
def gcz_full_size (h : GczHeader) : Nat :=
  GCZ_HEADER_SIZE + 8 * h.block_pointers.length + 4 * h.block_hashes.length

/-- The bytes the seek+read pair in GczFile.get_block returns (gsiz.py
lines 106 to 107): read_len bytes starting at full_size plus the masked
block start. -/
def gcz_block_data (f : GczFile) (block_num read_len : Nat) : List Nat :=
  ((f.handleData.drop (gcz_full_size f.header +
    (f.header.block_pointers.getD block_num 0 &&& COMPRESSED_BLOCK_BITMASK))).take read_len)

/-- GczFile.get_block (gsiz.py lines 100 to 124): size lookup, the
too-large guard, the seek+read, the Adler-32 comparison against the stored
hash, then either the raw length check for a stored-uncompressed block or
zlib.decompress with its default wbits (a zlib-wrapped stream) followed by
the decoded length check. zlibDecompress stands for zlib.decompress with
the wbits argument first. -/
def gcz_get_block (zlibDecompress : Int → List Nat → Except PyError (List Nat))
    (f : GczFile) (block_num : Nat) : Except PyError (List Nat) :=
  match get_block_size f block_num with
  | Except.error e => Except.error e
  | Except.ok block_size =>
    if (f.header.block_size : Int) < block_size then
      Except.error (PyError.gczError GczErrorKind.blockTooLarge)
    else
      let block_bytes := gcz_block_data f block_num block_size.toNat
      if compute_block_hash block_bytes ≠ f.header.block_hashes.getD block_num 0 then
        Except.error (PyError.gczError GczErrorKind.hashMismatch)
      else if get_block_is_uncompressed f block_num then
        if block_size ≠ (f.header.block_size : Int) then
          Except.error (PyError.gczError GczErrorKind.uncompressedSizeMismatch)
        else Except.ok block_bytes
      else
        match zlibDecompress ZLIB_DEFAULT_WBITS block_bytes with
        | Except.error e => Except.error e
        | Except.ok out =>
          if out.length ≠ f.header.block_size then
            Except.error (PyError.gczError GczErrorKind.decodeSizeMismatch)
          else Except.ok out

/-- Whether an exception value is a GczError, the only class the except
clause in GczDecompressor.decompress catches. -/
def isGczError : PyError → Bool
  | PyError.gczError _ => true
  | _ => false

/-- The block loop of GczDecompressor.decompress (gsiz.py lines 136 to
145) over the given block numbers. On a GczError with skip_broken set the
handler prints the error and then evaluates gcz_file.handle.block_size;
GczFile has no attribute named handle (the stream is stored as _handle and
the block size lives on header), so Python raises AttributeError right
there and the loop aborts. Exceptions other than GczError are never
caught. -/
def gcz_decompress_blocks (zlibDecompress : Int → List Nat → Except PyError (List Nat))
    (f : GczFile) (skip_broken : Bool) : List Nat → Except PyError (List Nat)
  | [] => Except.ok []
  | n :: rest =>
    match gcz_get_block zlibDecompress f n with
    | Except.ok block =>
      match gcz_decompress_blocks zlibDecompress f skip_broken rest with
      | Except.ok out => Except.ok (block ++ out)
      | Except.error e => Except.error e
    | Except.error e =>
      if skip_broken && isGczError e then Except.error PyError.attributeError
      else Except.error e

/-- GczDecompressor.decompress restricted to its block loop: every block
number below num_blocks, in order. -/
def gcz_decompress (zlibDecompress : Int → List Nat → Except PyError (List Nat))
    (f : GczFile) (skip_broken : Bool) : Except PyError (List Nat) :=
  gcz_decompress_blocks zlibDecompress f skip_broken (List.range f.header.num_blocks)

/-! Concrete sample inputs used by the closed theorems and witnesses. -/

/-- GCZ header bytes whose sizes disagree: magic correct, block_size = 1,
num_blocks = 1, data_size = 2, followed by 8 bytes where the block pointer
array would start. -/
def gczBadSizeBytes : List Nat :=
  packLE 4 GCZ_MAGIC ++ packLE 4 0 ++ packLE 8 0 ++ packLE 8 2 ++
    packLE 4 1 ++ packLE 4 1 ++ packLE 8 7

/-- A one-block GCZ file whose single block is flagged compressed and whose
stored hash 524296 is the Adler-32 of the stored byte 7. -/
def gczSample1 : GczFile where
  handleData := List.replicate 44 0 ++ [7]
  header := { magic_cookie := GCZ_MAGIC
              sub_type := 0
              compressed_data_size := 1
              data_size := 1
              block_size := 1
              num_blocks := 1
              block_pointers := [0]
              block_hashes := [524296] }

/-- A one-block GCZ file whose stored hash 0 disagrees with the Adler-32 of
the stored byte 5. -/
def gczSampleBadHash : GczFile where
  handleData := List.replicate 44 0 ++ [5]
  header := { magic_cookie := GCZ_MAGIC
              sub_type := 0
              compressed_data_size := 1
              data_size := 1
              block_size := 1
              num_blocks := 1
              block_pointers := [0]
              block_hashes := [0] }

/-! Helper lemmas. -/

theorem packLE_length (w v : Nat) : (packLE w v).length = w := by
  induction w generalizing v with
  | zero => rfl
  | succ w ih => simp [packLE, ih]

theorem packLE_append_drop (w v : Nat) (rest : List Nat) :
    (packLE w v ++ rest).drop w = rest := by
  induction w generalizing v with
  | zero => rfl
  | succ w ih => simpa [packLE] using ih (v / 256)

theorem leVal_packLE_append (w v : Nat) (rest : List Nat) (h : v < 256 ^ w) :
    leVal w (packLE w v ++ rest) = v := by
  induction w generalizing v rest with
  | zero =>
    interval_cases v
    rfl
  | succ w ih =>
    have hdiv : v / 256 < 256 ^ w := by
      rw [Nat.div_lt_iff_lt_mul (by norm_num)]
      calc v < 256 ^ (w + 1) := h
        _ = 256 ^ w * 256 := by rw [pow_succ]
    show v % 256 + 256 * leVal w (packLE w (v / 256) ++ rest) = v
    rw [ih (v / 256) rest hdiv]
    exact Nat.mod_add_div v 256

theorem leVal_packLE (w v : Nat) (h : v < 256 ^ w) : leVal w (packLE w v) = v := by
  have := leVal_packLE_append w v [] h
  simpa using this

theorem lor_land_self (x m : Nat) : (x ||| m) &&& m = m := by
  apply Nat.eq_of_testBit_eq
  intro i
  simp only [Nat.testBit_and, Nat.testBit_or]
  cases hx : x.testBit i <;> cases hm : m.testBit i <;> simp

theorem range_map_take_join (l : List Nat) (B n : Nat) :
    ((List.range n).map (fun i => (l.drop (i * B)).take B)).flatten = l.take (n * B) := by
  induction n with
  | zero => simp
  | succ n ih =>
    rw [List.range_succ, List.map_append, List.flatten_append, ih]
    simp only [List.map_cons, List.map_nil, List.flatten_cons, List.flatten_nil,
      List.append_nil]
    rw [Nat.succ_mul, List.take_add]

/-- Round trip of the CISO header codec, shared infrastructure for the
claims that mention the serialized header. -/
theorem read_header_build_header (file_size block_size align : Nat)
    (hf : file_size < 2 ^ 64) (hb : block_size < 2 ^ 32) (ha : align < 2 ^ 8) :
    read_header (build_header file_size block_size align) =
      Except.ok { magic := CISO_MAGIC
                  header_size := CISO_HEADER_SIZE
                  file_size := file_size
                  block_size := block_size
                  version := CISO_VER
                  align := align
                  reserved := 0 } := by
  have hf8 : file_size < 256 ^ 8 := by
    rw [show (256 : Nat) ^ 8 = 2 ^ 64 by norm_num]
    exact hf
  have hb4 : block_size < 256 ^ 4 := by
    rw [show (256 : Nat) ^ 4 = 2 ^ 32 by norm_num]
    exact hb
  have ha1 : align < 256 ^ 1 := by
    rw [show (256 : Nat) ^ 1 = 2 ^ 8 by norm_num]
    exact ha
  have hlen : (build_header file_size block_size align).length = 24 := by
    simp [build_header, packLE_length]
  have htake : (build_header file_size block_size align).take CISO_HEADER_SIZE =
      build_header file_size block_size align := by
    rw [show CISO_HEADER_SIZE = 24 from rfl, ← hlen, List.take_length]
  simp only [read_header, htake]
  simp only [build_header, List.append_assoc]
  rw [packLE_append_drop, packLE_append_drop, packLE_append_drop, packLE_append_drop,
    packLE_append_drop, packLE_append_drop]
  rw [leVal_packLE_append 4 CISO_MAGIC _ (by norm_num [CISO_MAGIC]),
    leVal_packLE_append 4 CISO_HEADER_SIZE _ (by norm_num [CISO_HEADER_SIZE]),
    leVal_packLE_append 8 file_size _ hf8,
    leVal_packLE_append 4 block_size _ hb4,
    leVal_packLE_append 1 CISO_VER _ (by norm_num [CISO_VER]),
    leVal_packLE_append 1 align _ ha1,
    leVal_packLE 2 0 (by norm_num)]
  simp

/-! Claim theorems. -/

/-- C1: the claim states that the CISO index start offset is the masked
entry value left-shifted by the alignment shift and that the block read
seeks to that shifted start. The code computes the length exactly as the
claim says, but seeks to the unshifted masked value: with align 1 and
index entries [3, 5], block 0 is read from offset 3 while the shifted
start is 6. The repository compressor records entries as the write
position shifted right by align, so the unshifted seek is a slip in the
decompressor. -/
theorem c1_seek_not_shifted :
    (cisoBlockRange 1 [3, 5] 0).seekPos = 3 ∧
    (3 &&& INDEX_BITMASK) <<< 1 = 6 ∧
    (3 : Nat) ≠ 6 ∧
    (cisoBlockRange 1 [3, 5] 0).readLen = ((5 - 3 + 1) * 2 ^ 1 : Int) ∧
    (cisoBlockRange 0 [3, 5] 0).seekPos = (3 &&& INDEX_BITMASK) <<< 0 := by
  refine ⟨rfl, by decide, by decide, by decide, rfl⟩

/-- C5: the claim states that a GCZ header whose block_size times
num_blocks differs from data_size fails with a GczError SizeMismatch,
detected before any pointers, hashes or block bytes are read. The eager
detection holds (the read trace is only the 32 header bytes), but the
failure is a TypeError raised while the error message is built, because
the formatting expression applies the percent operator to block_size alone
against two conversion specifiers. -/
theorem c5_size_mismatch_typeerror :
    gczHeaderLoad gczBadSizeBytes = (Except.error PyError.typeError, [(0, 32)]) ∧
    gczBadSizeBytes.length = 40 := by
  exact ⟨rfl, rfl⟩

/-- C8: the claim states that with skip_broken enabled a block whose
retrieval fails with a GczError is replaced by a zero-filled block and
processing continues, while without the option the failure aborts. On a
one-block file whose stored hash disagrees with its block bytes, the
skip_broken handler crashes with AttributeError (it evaluates
gcz_file.handle.block_size, and GczFile has no attribute handle), so
nothing is substituted and nothing continues; without the option the
hash failure aborts as claimed. -/
theorem c8_skip_broken_attributeerror :
    gcz_decompress (fun _ _ => Except.ok []) gczSampleBadHash true =
      Except.error PyError.attributeError ∧
    gcz_decompress (fun _ _ => Except.ok []) gczSampleBadHash false =
      Except.error (PyError.gczError GczErrorKind.hashMismatch) := by
  exact ⟨rfl, rfl⟩

/-- C9: the claim states that a block write at an unaligned position is
padded with the padding byte configured on the compressor before the
offset is recorded. Whenever padding would actually be emitted the
source raises NameError, because the padding branch references the bare
name PADDING_BYTE, which is not defined at module scope; on an aligned
position the empty padding is returned. Write position 25 with align 1 is
reachable after an odd-length compressed block in a file large enough to
select align 1. -/
theorem c9_align_padding_nameerror :
    get_align_padding 25 1 = Except.error PyError.nameError ∧
    get_align_padding 24 1 = Except.ok [] ∧
    get_align_padding 25 0 = Except.ok [] := by
  exact ⟨rfl, rfl, rfl⟩

/-- C2 counterexample: the claim fails as stated. First, the CISO decode
helper returns a stored-uncompressed block of length 3 unchecked, although
the claim says the raw length is verified against the fixed block size.
Second, on a concrete one-block GCZ file the decode goes through the
default zlib-wrapped wbits value 15 and succeeds with a decoder that
rejects the raw window-limited value -15, although the claim says the raw
deflate variant is used. -/
theorem c2_counterexample :
    decompress_mp_helper (fun _ _ => Except.error PyError.zlibError) false [1, 2, 3] =
      Except.ok [1, 2, 3] ∧
    ([1, 2, 3] : List Nat).length ≠ CISO_BLOCK_SIZE ∧
    gcz_get_block
      (fun w _ => if w = (15 : Int) then Except.ok [9] else Except.error PyError.zlibError)
      gczSample1 0 = Except.ok [9] ∧
    (fun w (_ : List Nat) =>
        if w = (15 : Int) then Except.ok [9] else Except.error PyError.zlibError)
      ZLIB_WINDOW_SIZE (gcz_block_data gczSample1 0 1) = Except.error PyError.zlibError := by
  refine ⟨rfl, by decide, rfl, rfl⟩

/-- C2 as amended: the GCZ get_block decodes a non-stored block with
zlib.decompress at its default wbits (a zlib-wrapped stream, not the raw
window-limited one) and fails with the decoded size mismatch error when
the decoded length differs from block_size, and a stored-uncompressed GCZ
block whose raw length differs from block_size fails; the CISO decode
helper decodes a non-stored block with the raw window-limited deflate
stream (wbits ZLIB_WINDOW_SIZE) and performs no length verification at
all, returning a stored-uncompressed block unchecked. -/
theorem c2_decode_paths
    (z zc : Int → List Nat → Except PyError (List Nat)) (data : List Nat)
    (f : GczFile) (n : Nat) (s : Int)
    (hsize : get_block_size f n = Except.ok s)
    (hfit : ¬ (f.header.block_size : Int) < s)
    (hhash : compute_block_hash (gcz_block_data f n s.toNat) =
      f.header.block_hashes.getD n 0) :
    decompress_mp_helper zc true data = zc ZLIB_WINDOW_SIZE data ∧
    decompress_mp_helper zc false data = Except.ok data ∧
    (get_block_is_uncompressed f n = false →
      gcz_get_block z f n =
        match z ZLIB_DEFAULT_WBITS (gcz_block_data f n s.toNat) with
        | Except.error e => Except.error e
        | Except.ok out =>
          if out.length ≠ f.header.block_size then
            Except.error (PyError.gczError GczErrorKind.decodeSizeMismatch)
          else Except.ok out) ∧
    (get_block_is_uncompressed f n = true → s ≠ (f.header.block_size : Int) →
      gcz_get_block z f n =
        Except.error (PyError.gczError GczErrorKind.uncompressedSizeMismatch)) ∧
    (get_block_is_uncompressed f n = true → s = (f.header.block_size : Int) →
      gcz_get_block z f n = Except.ok (gcz_block_data f n s.toNat)) := by
  refine ⟨rfl, rfl, ?_, ?_, ?_⟩
  · intro hu
    simp [gcz_get_block, hsize, hfit, hhash, hu]
  · intro hu hne
    simp [gcz_get_block, hsize, hfit, hhash, hu, hne]
  · intro hu heq
    subst heq
    have hhash2 : compute_block_hash (gcz_block_data f n f.header.block_size) =
        f.header.block_hashes.getD n 0 := by
      simpa using hhash
    simp [gcz_get_block, hsize, hfit, hhash2, hu]

/-- C2 witness: the amended statement applied to a concrete one-block GCZ
file with a matching stored hash and a decoder succeeding at the default
wbits with a block of the right size. -/
theorem c2_decode_paths_witness :
    gcz_get_block
      (fun w _ => if w = (15 : Int) then Except.ok [9] else Except.error PyError.zlibError)
      gczSample1 0 = Except.ok [9] ∧
    decompress_mp_helper (fun _ _ => Except.error PyError.zlibError) false [3] =
      Except.ok [3] := by
  have h := c2_decode_paths
    (fun w _ => if w = (15 : Int) then Except.ok [9] else Except.error PyError.zlibError)
    (fun _ _ => Except.error PyError.zlibError) [3] gczSample1 0 1
    rfl (by decide) (by decide)
  refine ⟨?_, h.2.1⟩
  have h3 := h.2.2.1 (by decide)
  rw [h3]
  rfl

/-- C3: when the compressed size as a percentage of the raw size reaches
the threshold, the helper keeps the unmodified raw bytes and reports the
block as not compressed, the index entry of such a block carries
UNCOMPRESSED_BITMASK, and retrieval of a stored-uncompressed block
returns the identical raw bytes for every decode function, so the decoder
is never consulted; below the threshold the compressed bytes are kept and
the recorded entry is the bare shifted offset with the flag clear. The
nonempty hypothesis mirrors the division by len(data) in the source. -/
theorem c3_threshold_stores_raw
    (zlibCompress : Nat → List Nat → List Nat)
    (zd zd2 : Int → List Nat → Except PyError (List Nat))
    (data : List Nat) (level threshold align write_pos pad_len : Nat)
    (_hne : data ≠ []) :
    (threshold ≤ 100 * ((zlibCompress level data).drop 2).length / data.length →
      compress_mp_helper zlibCompress data level threshold = (false, data) ∧
      decompress_mp_helper zd false data = Except.ok data ∧
      decompress_mp_helper zd false data = decompress_mp_helper zd2 false data ∧
      ciso_index_entry align write_pos pad_len false =
        Except.ok ((write_pos + pad_len) >>> align ||| UNCOMPRESSED_BITMASK) ∧
      ((write_pos + pad_len) >>> align ||| UNCOMPRESSED_BITMASK) &&& UNCOMPRESSED_BITMASK ≠ 0)
    ∧ (100 * ((zlibCompress level data).drop 2).length / data.length < threshold →
      compress_mp_helper zlibCompress data level threshold =
        (true, (zlibCompress level data).drop 2) ∧
      ((write_pos + pad_len) >>> align &&& UNCOMPRESSED_BITMASK = 0 →
        ciso_index_entry align write_pos pad_len true =
          Except.ok ((write_pos + pad_len) >>> align))) := by
  constructor
  · intro hge
    refine ⟨?_, rfl, rfl, rfl, ?_⟩
    · simp only [compress_mp_helper]
      rw [if_pos hge]
    · rw [lor_land_self]
      simp [UNCOMPRESSED_BITMASK]
  · intro hlt
    have hnot : ¬ threshold ≤ 100 * ((zlibCompress level data).drop 2).length / data.length :=
      Nat.not_le.mpr hlt
    refine ⟨?_, ?_⟩
    · simp only [compress_mp_helper]
      rw [if_neg hnot]
    · intro hz
      simp [ciso_index_entry, hz]

/-- C3 witness: a two-byte block that a doubling compressor takes to ratio
100 against the default threshold 90 is kept raw, retrieval returns it
unchanged, and its index entry carries the uncompressed flag. -/
theorem c3_threshold_witness :
    compress_mp_helper (fun _ d => d ++ d) [0, 0] 1 90 = (false, [0, 0]) ∧
    decompress_mp_helper (fun _ _ => Except.error PyError.zlibError) false [0, 0] =
      Except.ok [0, 0] ∧
    ciso_index_entry 0 24 0 false = Except.ok ((24 + 0) >>> 0 ||| UNCOMPRESSED_BITMASK) := by
  have h := c3_threshold_stores_raw (fun _ d => d ++ d)
    (fun _ _ => Except.error PyError.zlibError) (fun _ _ => Except.ok []) [0, 0] 1 90 0 24 0
    (by decide)
  have h1 := h.1 (by decide)
  exact ⟨h1.1, h1.2.1, h1.2.2.2.1⟩

/-- C4: before any decode step, GCZ get_block compares the 32-bit masked
Adler-32 of the block bytes exactly as read from the stream against the
stored hash of that block; on a mismatch it fails with the hash mismatch
GczError, and the result is the same for every decode function, so no
decode is attempted on that path. The hash value fits in 32 bits. -/
theorem c4_gcz_checksum_guard
    (z z2 : Int → List Nat → Except PyError (List Nat)) (f : GczFile) (n : Nat) (s : Int)
    (hsize : get_block_size f n = Except.ok s)
    (hfit : ¬ (f.header.block_size : Int) < s)
    (hmis : compute_block_hash (gcz_block_data f n s.toNat) ≠
      f.header.block_hashes.getD n 0) :
    gcz_get_block z f n = Except.error (PyError.gczError GczErrorKind.hashMismatch) ∧
    gcz_get_block z f n = gcz_get_block z2 f n ∧
    compute_block_hash (gcz_block_data f n s.toNat) < 2 ^ 32 := by
  have hrun : ∀ zf : Int → List Nat → Except PyError (List Nat),
      gcz_get_block zf f n = Except.error (PyError.gczError GczErrorKind.hashMismatch) := by
    intro zf
    simp [gcz_get_block, hsize, hfit]
    intro hcontra
    exact absurd (by simpa using hcontra) hmis
  have hbound : compute_block_hash (gcz_block_data f n s.toNat) < 2 ^ 32 := by
    have hle : compute_block_hash (gcz_block_data f n s.toNat) ≤ 0xFFFFFFFF :=
      Nat.and_le_right
    exact lt_of_le_of_lt hle (by norm_num)
  exact ⟨hrun z, (hrun z).trans (hrun z2).symm, hbound⟩

/-- C4 witness: the checksum guard applied to the concrete one-block file
whose stored hash 0 disagrees with the Adler-32 of its stored byte. -/
theorem c4_checksum_witness :
    gcz_get_block (fun _ _ => Except.ok []) gczSampleBadHash 0 =
      Except.error (PyError.gczError GczErrorKind.hashMismatch) :=
  (c4_gcz_checksum_guard (fun _ _ => Except.ok [])
    (fun _ _ => Except.error PyError.zlibError) gczSampleBadHash 0 1
    rfl (by decide) (by decide)).1

/-- C6: with the pointer array sized to num_blocks, requesting any block
number at or past num_blocks fails with the illegal block number GczError,
while the last block succeeds and its length is compressed_data_size minus
the masked start offset of the last entry. -/
theorem c6_gcz_block_index_bounds (f : GczFile) (m : Nat)
    (hlen : f.header.block_pointers.length = f.header.num_blocks)
    (hpos : 0 < f.header.num_blocks) :
    (f.header.num_blocks ≤ m →
      get_block_size f m = Except.error (PyError.gczError GczErrorKind.indexOutOfRange)) ∧
    ∃ p, get_block_start f (f.header.num_blocks - 1) = Except.ok p ∧
      get_block_size f (f.header.num_blocks - 1) =
        Except.ok ((f.header.compressed_data_size : Int) - (p : Int)) := by
  constructor
  · intro hm
    have h1 : f.header.block_pointers[m]? = none := by
      rw [List.getElem?_eq_none_iff]
      omega
    simp [get_block_size, get_block_start, h1]
  · have hlt : f.header.num_blocks - 1 < f.header.block_pointers.length := by omega
    obtain ⟨p0, hp0⟩ : ∃ p0,
        f.header.block_pointers[f.header.num_blocks - 1]? = some p0 :=
      ⟨_, List.getElem?_eq_getElem hlt⟩
    refine ⟨p0 &&& COMPRESSED_BLOCK_BITMASK, ?_, ?_⟩
    · simp [get_block_start, hp0]
    · have hcast : ((f.header.num_blocks - 1 : Nat) : Int) = (f.header.num_blocks : Int) - 1 := by
        omega
      simp [get_block_size, get_block_start, hp0, hcast]

/-- C6 witness: on the concrete one-block file, block 1 is rejected with
the illegal block number GczError and block 0 succeeds with length
compressed_data_size minus its start. -/
theorem c6_block_index_witness :
    get_block_size gczSample1 1 = Except.error (PyError.gczError GczErrorKind.indexOutOfRange) ∧
    get_block_size gczSample1 0 = Except.ok 1 := by
  have h := c6_gcz_block_index_bounds gczSample1 1 rfl (by decide)
  refine ⟨h.1 (by decide), ?_⟩
  obtain ⟨p, hp, hs⟩ := h.2
  have hp0 : (Except.ok p : Except PyError Nat) = Except.ok 0 := by
    rw [← hp]
    rfl
  have hpeq : p = 0 := by
    injection hp0
  rw [hpeq] at hs
  simpa using hs

/-- C7: parsing the bytes produced by serializing a valid CISO header
yields the same header field for field: magic, header size, file size,
block size, version, alignment shift and reserved word all round trip
through build_header and read_header. -/
theorem c7_ciso_header_roundtrip (file_size block_size align : Nat)
    (hf : file_size < 2 ^ 64) (hb : block_size < 2 ^ 32) (ha : align < 2 ^ 8) :
    read_header (build_header file_size block_size align) =
      Except.ok { magic := CISO_MAGIC
                  header_size := CISO_HEADER_SIZE
                  file_size := file_size
                  block_size := block_size
                  version := CISO_VER
                  align := align
                  reserved := 0 } :=
  read_header_build_header file_size block_size align hf hb ha

/-- C7 witness: the round trip at the concrete header of a 5-byte file
with block size 2048 and align 0. -/
theorem c7_header_roundtrip_witness :
    read_header (build_header 5 2048 0) =
      Except.ok { magic := CISO_MAGIC
                  header_size := CISO_HEADER_SIZE
                  file_size := 5
                  block_size := 2048
                  version := CISO_VER
                  align := 0
                  reserved := 0 } :=
  c7_ciso_header_roundtrip 5 2048 0 (by norm_num) (by norm_num) (by norm_num)

/-- C10: when the input length is not a multiple of CISO_BLOCK_SIZE, the
compress loop performs exactly floor(length / CISO_BLOCK_SIZE) block
reads, those reads cover only the first blockCount * CISO_BLOCK_SIZE
bytes, which is strictly less than the whole input, so the trailing
remainder is never read, while the header written out still declares the
full input length as the file size. -/
theorem c10_trailing_remainder_dropped (input : List Nat)
    (hrem : input.length % CISO_BLOCK_SIZE ≠ 0) (hsz : input.length < 2 ^ 64) :
    (cisoCompressReads input).length = input.length / CISO_BLOCK_SIZE ∧
    (cisoCompressReads input).flatten =
      input.take (input.length / CISO_BLOCK_SIZE * CISO_BLOCK_SIZE) ∧
    input.length / CISO_BLOCK_SIZE * CISO_BLOCK_SIZE < input.length ∧
    read_header (build_header input.length CISO_BLOCK_SIZE (cisoAlign input.length)) =
      Except.ok { magic := CISO_MAGIC
                  header_size := CISO_HEADER_SIZE
                  file_size := input.length
                  block_size := CISO_BLOCK_SIZE
                  version := CISO_VER
                  align := cisoAlign input.length
                  reserved := 0 } := by
  refine ⟨?_, ?_, ?_, ?_⟩
  · simp [cisoCompressReads, cisoBlockCount]
  · simpa [cisoCompressReads, cisoBlockCount] using
      range_map_take_join input CISO_BLOCK_SIZE (input.length / CISO_BLOCK_SIZE)
  · simp only [CISO_BLOCK_SIZE] at hrem ⊢
    omega
  · refine read_header_build_header input.length CISO_BLOCK_SIZE (cisoAlign input.length)
      hsz (by norm_num [CISO_BLOCK_SIZE]) ?_
    unfold cisoAlign
    split <;> norm_num

/-- C10 witness: a one-byte input yields zero block reads covering zero
bytes, strictly less than the input length, while the header still
declares file size 1. -/
theorem c10_trailing_witness :
    (cisoCompressReads [0]).length = ([0] : List Nat).length / CISO_BLOCK_SIZE ∧
    (cisoCompressReads [0]).flatten =
      ([0] : List Nat).take (([0] : List Nat).length / CISO_BLOCK_SIZE * CISO_BLOCK_SIZE) ∧
    ([0] : List Nat).length / CISO_BLOCK_SIZE * CISO_BLOCK_SIZE < ([0] : List Nat).length ∧
    read_header (build_header ([0] : List Nat).length CISO_BLOCK_SIZE
        (cisoAlign ([0] : List Nat).length)) =
      Except.ok { magic := CISO_MAGIC
                  header_size := CISO_HEADER_SIZE
                  file_size := ([0] : List Nat).length
                  block_size := CISO_BLOCK_SIZE
                  version := CISO_VER
                  align := cisoAlign ([0] : List Nat).length
                  reserved := 0 } :=
  c10_trailing_remainder_dropped [0] (by norm_num [CISO_BLOCK_SIZE]) (by norm_num)
